import Mathlib

/-!
Verification of the commitment-tracking data model and its operations
(`src/src/models/commitments.py`): commitment records with progressive
date refinement, an append-only date history, and unique links from
commitments to emails and calendar events.

Timestamps are modelled abstractly as `Nat`; `isoformat` is their
textual rendering. JSONB column values and the output of `to_dict` are
modelled by a small `Json` type. The backing store's declared
constraints (the `uq_commitment_email` unique constraint and the
foreign key from links to `commitments.id`) are enforced at the commit
step of the link operation, as the database does.
-/

/-- Minimal JSON value type, for the JSONB columns and the output of `to_dict`. -/
inductive Json where
  | null
  | str (s : String)
  | num (n : Int)
  | bool (b : Bool)
  | arr (xs : List Json)
  | obj (fields : List (String × Json))

/-- Look a key up in a JSON object; `none` on non-objects or missing keys. -/
def Json.lookup (j : Json) (k : String) : Option Json :=
  match j with
  | .obj fields => (fields.find? (fun p => p.1 == k)).map (fun p => p.2)
  | _ => none

/-- Keys of a JSON object, in order. -/
def Json.keys : Json → List String
  | .obj fields => fields.map (fun p => p.1)
  | _ => []

/-- Abstract textual rendering of a timestamp (`datetime.isoformat`). -/
def isoformat (t : Nat) : String := toString t

/-- One entry of `metadata.date_history`: the dict
`{"date": ..., "source": ..., "updated_at": datetime.utcnow().isoformat()}`. -/
structure HistoryEntry where
  date : String
  source : String
  updated_at : String
deriving Repr, DecidableEq

/-- The `metadata` JSONB mapping, with its one reserved key `date_history`;
`date_history = none` models a dict without that key. -/
structure MetadataMap where
  date_history : Option (List HistoryEntry)
deriving Repr, DecidableEq

/-- JSON rendering of the metadata mapping. -/
def MetadataMap.toJson (m : MetadataMap) : Json :=
  match m.date_history with
  | none => Json.obj []
  | some h => Json.obj [("date_history", Json.arr (h.map (fun e =>
      Json.obj [("date", Json.str e.date), ("source", Json.str e.source),
        ("updated_at", Json.str e.updated_at)])))]

/-- A row of the `commitments` table (class `Commitment`). -/
structure Commitment where
  id : Nat
  title : String
  description : Option String
  commitment_type : Option String
  status : String
  start_date : Option Nat
  end_date : Option Nat
  timezone : Option String
  date_certainty : String
  participants : Json
  organizer : Option String
  location : Option String
  meeting_links : Json
  auto_linked : Bool
  confidence_score : Option Int
  metadata : Option MetadataMap
  created_at : Option Nat
  updated_at : Option Nat

/-- A row of the `commitment_emails` table (class `CommitmentEmail`). -/
structure CommitmentEmail where
  id : Nat
  commitment_id : Nat
  message_id : String
  linked_at : Option Nat
  linked_by : String
  confidence_score : Option Int
  link_reason : Option String

/-- A row of the `commitment_calendar_events` table (class `CommitmentCalendarEvent`). -/
structure CommitmentCalendarEvent where
  id : Nat
  commitment_id : Nat
  event_id : String
  event_data : Option Json
  linked_at : Option Nat
  linked_by : String
  confidence_score : Option Int
  link_reason : Option String

/-- The backing store: the three tables. -/
structure DB where
  commitments : List Commitment
  emailLinks : List CommitmentEmail
  calendarLinks : List CommitmentCalendarEvent

/-- Method `Commitment.add_date_history_entry`: initialize `metadata` if `None`,
initialize `date_history` if absent, append one entry. -/
def Commitment.add_date_history_entry (c : Commitment) (date_info : String)
    (source : String) (now : Nat) : Commitment :=
  let m := match c.metadata with
    | none => ({ date_history := none } : MetadataMap)
    | some m => m
  let hist := match m.date_history with
    | none => ([] : List HistoryEntry)
    | some h => h
  let entry : HistoryEntry :=
    { date := date_info, source := source, updated_at := isoformat now }
  { c with metadata := some { m with date_history := some (hist ++ [entry]) } }

/-- The `date_history` list of a commitment (empty when `metadata` is `None`
or holds no `date_history` key). -/
def Commitment.dateHistory (c : Commitment) : List HistoryEntry :=
  match c.metadata with
  | none => []
  | some m =>
    match m.date_history with
    | none => []
    | some h => h

/-- Number of email links of a commitment (`len(self.linked_emails)`). -/
def emailCount (db : DB) (commitment_id : Nat) : Nat :=
  (db.emailLinks.filter (fun l => l.commitment_id == commitment_id)).length

/-- Number of calendar-event links of a commitment (`len(self.linked_calendar_events)`). -/
def calendarEventCount (db : DB) (commitment_id : Nat) : Nat :=
  (db.calendarLinks.filter (fun l => l.commitment_id == commitment_id)).length

/-- Method `Commitment.to_dict`: flat dictionary of every column plus the two
derived link counts; absent timestamps render as `null`. -/
def Commitment.to_dict (db : DB) (c : Commitment) : Json :=
  Json.obj [
    ("id", Json.str (toString c.id)),
    ("title", Json.str c.title),
    ("description", match c.description with | some d => Json.str d | none => Json.null),
    ("commitment_type", match c.commitment_type with | some t => Json.str t | none => Json.null),
    ("status", Json.str c.status),
    ("start_date", match c.start_date with | some t => Json.str (isoformat t) | none => Json.null),
    ("end_date", match c.end_date with | some t => Json.str (isoformat t) | none => Json.null),
    ("timezone", match c.timezone with | some t => Json.str t | none => Json.null),
    ("date_certainty", Json.str c.date_certainty),
    ("participants", c.participants),
    ("organizer", match c.organizer with | some o => Json.str o | none => Json.null),
    ("location", match c.location with | some l => Json.str l | none => Json.null),
    ("meeting_links", c.meeting_links),
    ("auto_linked", Json.bool c.auto_linked),
    ("confidence_score", match c.confidence_score with | some s => Json.num s | none => Json.null),
    ("metadata", match c.metadata with | some m => m.toJson | none => Json.null),
    ("created_at", match c.created_at with | some t => Json.str (isoformat t) | none => Json.null),
    ("updated_at", match c.updated_at with | some t => Json.str (isoformat t) | none => Json.null),
    ("email_count", Json.num (Int.ofNat (emailCount db c.id))),
    ("calendar_event_count", Json.num (Int.ofNat (calendarEventCount db c.id)))
  ]

/-- Error outcome of the link operation: the store rejects the commit when the
foreign key does not resolve (`NotFound`) or when the `uq_commitment_email`
unique constraint on `(commitment_id, message_id)` is violated (`DuplicateLink`). -/
inductive LinkError where
  | NotFound
  | DuplicateLink
deriving Repr, DecidableEq

/-- Error outcome of `update_commitment_date`: the `ValueError` raised when the
commitment id does not resolve. -/
inductive RefineError where
  | NotFound
deriving Repr, DecidableEq

/-- Error outcome of the certainty-lattice operations. -/
inductive CertaintyError where
  | InvalidCertainty
deriving Repr, DecidableEq

/-- Lookup `session.query(Commitment).filter_by(id=commitment_id).first()`. -/
def getCommitment (db : DB) (commitment_id : Nat) : Option Commitment :=
  db.commitments.find? (fun c => c.id == commitment_id)

/-- Replace the first commitment with the given id (the row mutated in place). -/
def setCommitment : List Commitment → Nat → Commitment → List Commitment
  | [], _, _ => []
  | c :: cs, cid, c' => if c.id == cid then c' :: cs else c :: setCommitment cs cid c'

/-- Function `create_commitment`: construct the row with the supplied fields and
the column defaults, insert it and commit. There is no input validation. Both
`created_at` and `updated_at` take the same `func.now()` of the insert. -/
def create_commitment (db : DB) (newId : Nat) (now : Nat) (title : String)
    (commitment_type : String) (start_date : Option Nat) (end_date : Option Nat)
    (date_certainty : String) : DB × Commitment :=
  let commitment : Commitment :=
    { id := newId
      title := title
      description := none
      commitment_type := some commitment_type
      status := "active"
      start_date := start_date
      end_date := end_date
      timezone := none
      date_certainty := date_certainty
      participants := Json.arr []
      organizer := none
      location := none
      meeting_links := Json.arr []
      auto_linked := false
      confidence_score := none
      metadata := some { date_history := none }
      created_at := some now
      updated_at := some now }
  ({ db with commitments := db.commitments ++ [commitment] }, commitment)

/-- Function `link_email_to_commitment`: build the link row and commit; the
store enforces the foreign key to `commitments.id` and the
`uq_commitment_email` unique constraint on `(commitment_id, message_id)`. -/
def link_email_to_commitment (db : DB) (newId : Nat) (now : Nat)
    (commitment_id : Nat) (message_id : String) (linked_by : String)
    (confidence_score : Option Int) (link_reason : Option String) :
    Except LinkError (DB × CommitmentEmail) :=
  let link : CommitmentEmail :=
    { id := newId
      commitment_id := commitment_id
      message_id := message_id
      linked_at := some now
      linked_by := linked_by
      confidence_score := confidence_score
      link_reason := link_reason }
  if db.commitments.any (fun c => c.id == commitment_id) then
    if db.emailLinks.any (fun l => l.commitment_id == commitment_id && l.message_id == message_id) then
      Except.error LinkError.DuplicateLink
    else
      Except.ok ({ db with emailLinks := db.emailLinks ++ [link] }, link)
  else
    Except.error LinkError.NotFound

/-- Default for the `date_certainty` parameter of `update_commitment_date`. -/
def update_commitment_date_default_certainty : String := "exact"

/-- Default for the `source` parameter of `update_commitment_date`. -/
def update_commitment_date_default_source : String := "update"

/-- Function `update_commitment_date`: look the commitment up by id (raising
when absent), append a history entry unconditionally, then overwrite
`start_date`, overwrite `end_date` only when one is supplied, overwrite
`date_certainty`, and commit (which refreshes `updated_at` via `onupdate`). -/
def update_commitment_date (db : DB) (commitment_id : Nat) (now : Nat)
    (start_date : Nat) (end_date : Option Nat) (date_certainty : String)
    (source : String) : Except RefineError DB :=
  match getCommitment db commitment_id with
  | none => Except.error RefineError.NotFound
  | some commitment =>
    let date_info := isoformat start_date
    let date_info := match end_date with
      | some e => date_info ++ (" to " ++ isoformat e)
      | none => date_info
    let c1 := commitment.add_date_history_entry date_info source now
    let c2 := { c1 with
      start_date := some start_date
      end_date := match end_date with
        | some e => some e
        | none => c1.end_date
      date_certainty := date_certainty
      updated_at := some now }
    Except.ok { db with commitments := setCommitment db.commitments commitment_id c2 }

/-- One request to `update_commitment_date`, for iterating refinements. -/
structure RefineReq where
  now : Nat
  start_date : Nat
  end_date : Option Nat
  date_certainty : String
  source : String

/-- Apply a sequence of `update_commitment_date` calls to one commitment. -/
def applyRefines (db : DB) (commitment_id : Nat) : List RefineReq → Except RefineError DB
  | [] => Except.ok db
  | r :: rs =>
    match update_commitment_date db commitment_id r.now r.start_date r.end_date
        r.date_certainty r.source with
    | Except.error e => Except.error e
    | Except.ok db1 => applyRefines db1 commitment_id rs

/-- Number of email links with a given `(commitment_id, message_id)` pair. -/
def emailLinkCount (db : DB) (commitment_id : Nat) (message_id : String) : Nat :=
  (db.emailLinks.filter
    (fun l => l.commitment_id == commitment_id && l.message_id == message_id)).length

/-- History of a commitment looked up by id in the store. -/
def historyOf (db : DB) (commitment_id : Nat) : List HistoryEntry :=
  match getCommitment db commitment_id with
  | none => []
  | some c => c.dateHistory

/-- The six certainty labels, in their lattice order (the value list declared
for the `date_certainty` column). -/
def certaintyLevels : List String :=
  ["unknown", "month", "week", "day", "exact", "time_confirmed"]

/-- Modelled from the spec: the Certainty Lattice's `rank` operation is not in
the source (only the `date_certainty` value list is declared there); per spec
section 4.1 it maps a label to its position in the total order
`unknown < month < week < day < exact < time_confirmed` and fails with
`InvalidCertainty` on any other label. -/
def rank (level : String) : Except CertaintyError Nat :=
  if level = "unknown" then Except.ok 0
  else if level = "month" then Except.ok 1
  else if level = "week" then Except.ok 2
  else if level = "day" then Except.ok 3
  else if level = "exact" then Except.ok 4
  else if level = "time_confirmed" then Except.ok 5
  else Except.error CertaintyError.InvalidCertainty

/-- Modelled from the spec: the Certainty Lattice's `is_refinement` operation
is not in the source; per spec section 4.1 it holds exactly when
`rank(new) >= rank(old)`. -/
def is_refinement (old : String) (new : String) : Except CertaintyError Bool :=
  match rank old, rank new with
  | Except.ok ro, Except.ok rn => Except.ok (decide (ro ≤ rn))
  | Except.error e, _ => Except.error e
  | Except.ok _, Except.error e => Except.error e

/-- The commitment produced by one `update_commitment_date` call from a found
commitment: history entry appended, then the date fields overwritten. -/
def refinedCommitment (commitment : Commitment) (now : Nat) (start_date : Nat)
    (end_date : Option Nat) (date_certainty : String) (source : String) : Commitment :=
  let date_info := isoformat start_date
  let date_info := match end_date with
    | some e => date_info ++ (" to " ++ isoformat e)
    | none => date_info
  let c1 := commitment.add_date_history_entry date_info source now
  { c1 with
    start_date := some start_date
    end_date := match end_date with
      | some e => some e
      | none => c1.end_date
    date_certainty := date_certainty
    updated_at := some now }

/-- The human-readable date label built by `update_commitment_date`. -/
def refineDateInfo (start_date : Nat) (end_date : Option Nat) : String :=
  match end_date with
  | some e => isoformat start_date ++ (" to " ++ isoformat e)
  | none => isoformat start_date

/-- The store with all three tables empty. -/
def emptyDB : DB := { commitments := [], emailLinks := [], calendarLinks := [] }

/-- A concrete commitment used to evaluate the theorems on closed inputs. -/
def exampleCommitment : Commitment :=
  { id := 1
    title := "Team Offsite"
    description := none
    commitment_type := some "trip"
    status := "active"
    start_date := some 10
    end_date := some 30
    timezone := none
    date_certainty := "month"
    participants := Json.arr []
    organizer := none
    location := none
    meeting_links := Json.arr []
    auto_linked := false
    confidence_score := none
    metadata := none
    created_at := some 1
    updated_at := some 1 }

/-- A concrete commitment with every optional timestamp absent. -/
def exampleBareCommitment : Commitment :=
  { id := 7
    title := "Draft Report"
    description := none
    commitment_type := none
    status := "active"
    start_date := none
    end_date := none
    timezone := none
    date_certainty := "unknown"
    participants := Json.arr []
    organizer := none
    location := none
    meeting_links := Json.arr []
    auto_linked := false
    confidence_score := none
    metadata := none
    created_at := none
    updated_at := none }

/-- A store holding the one concrete commitment and no links. -/
def exampleDB : DB :=
  { commitments := [exampleCommitment], emailLinks := [], calendarLinks := [] }

/-- Two concrete refinement requests. -/
def exampleReqs : List RefineReq :=
  [{ now := 5, start_date := 15, end_date := some 17, date_certainty := "day", source := "email-1" },
   { now := 6, start_date := 15, end_date := none, date_certainty := "exact", source := "email-2" }]

/-- The store after applying the two concrete refinement requests. -/
def exampleDB2 : DB :=
  match applyRefines exampleDB 1 exampleReqs with
  | Except.ok d => d
  | Except.error _ => exampleDB

/-- The store after one concrete refinement with no end date. -/
def exampleRefinedDB : DB :=
  match update_commitment_date exampleDB 1 7 20 none "exact" "email-2" with
  | Except.ok d => d
  | Except.error _ => exampleDB

/-- The store after a concrete refinement through the parameter defaults. -/
def exampleDefaultsDB : DB :=
  match update_commitment_date exampleDB 1 8 21 none
      update_commitment_date_default_certainty update_commitment_date_default_source with
  | Except.ok d => d
  | Except.error _ => exampleDB

/-- The store after one concrete email link. -/
def exampleLinkedDB : DB :=
  match link_email_to_commitment exampleDB 10 5 1 "msg-1" "ai" none none with
  | Except.ok p => p.1
  | Except.error _ => exampleDB

/-- The concrete link row created by the first concrete link call. -/
def exampleLink : CommitmentEmail :=
  match link_email_to_commitment exampleDB 10 5 1 "msg-1" "ai" none none with
  | Except.ok p => p.2
  | Except.error _ =>
    { id := 10, commitment_id := 1, message_id := "msg-1", linked_at := some 5,
      linked_by := "ai", confidence_score := none, link_reason := none }

/-! ## Helper lemmas -/

theorem dateHistory_add_date_history_entry (c : Commitment) (d s : String) (now : Nat) :
    (c.add_date_history_entry d s now).dateHistory =
      c.dateHistory ++ [{ date := d, source := s, updated_at := isoformat now }] := by
  unfold Commitment.add_date_history_entry Commitment.dateHistory
  cases hm : c.metadata with
  | none => simp
  | some m =>
    cases hh : m.date_history with
    | none => simp
    | some h => simp

theorem getCommitment_setCommitment (cs : List Commitment) (cid : Nat)
    (c c' : Commitment) (h : cs.find? (fun x => x.id == cid) = some c)
    (hid : c'.id = cid) :
    (setCommitment cs cid c').find? (fun x => x.id == cid) = some c' := by
  induction cs with
  | nil => simp at h
  | cons a as ih =>
    unfold setCommitment
    by_cases ha : (a.id == cid) = true
    · simp only [ha, if_true]
      have : (c'.id == cid) = true := by simp [hid]
      simp [List.find?_cons_of_pos, this]
    · simp only [ha, if_false, Bool.false_eq_true]
      rw [List.find?_cons_of_neg _ (by simp [ha]), ih]
      rw [List.find?_cons_of_neg _ (by simp [ha])] at h
      exact h

theorem update_commitment_date_eq_ok (db : DB) (cid now s : Nat) (e : Option Nat)
    (cert src : String) (c : Commitment) (hc : getCommitment db cid = some c) :
    update_commitment_date db cid now s e cert src =
      Except.ok { db with commitments := setCommitment db.commitments cid (refinedCommitment c now s e cert src) } := by
  unfold update_commitment_date
  rw [hc]
  rfl

theorem refinedCommitment_id (c : Commitment) (now s : Nat) (e : Option Nat)
    (cert src : String) : (refinedCommitment c now s e cert src).id = c.id := rfl

theorem refinedCommitment_start_date (c : Commitment) (now s : Nat) (e : Option Nat)
    (cert src : String) : (refinedCommitment c now s e cert src).start_date = some s := rfl

theorem refinedCommitment_date_certainty (c : Commitment) (now s : Nat) (e : Option Nat)
    (cert src : String) : (refinedCommitment c now s e cert src).date_certainty = cert := rfl

theorem refinedCommitment_end_date (c : Commitment) (now s : Nat) (e : Option Nat)
    (cert src : String) :
    (refinedCommitment c now s e cert src).end_date =
      (match e with | some x => some x | none => c.end_date) := by
  cases e <;> rfl

theorem refinedCommitment_dateHistory (c : Commitment) (now s : Nat) (e : Option Nat)
    (cert src : String) :
    (refinedCommitment c now s e cert src).dateHistory =
      c.dateHistory ++ [{ date := refineDateInfo s e, source := src, updated_at := isoformat now }] := by
  have h1 : (refinedCommitment c now s e cert src).dateHistory =
      (c.add_date_history_entry (refineDateInfo s e) src now).dateHistory := by
    cases e <;> rfl
  rw [h1, dateHistory_add_date_history_entry]

theorem historyOf_update (db db' : DB) (cid now s : Nat) (e : Option Nat)
    (cert src : String)
    (h : update_commitment_date db cid now s e cert src = Except.ok db') :
    historyOf db' cid =
      historyOf db cid ++ [{ date := refineDateInfo s e, source := src, updated_at := isoformat now }] := by
  cases hc : getCommitment db cid with
  | none =>
    unfold update_commitment_date at h
    rw [hc] at h
    cases h
  | some c =>
    rw [update_commitment_date_eq_ok db cid now s e cert src c hc] at h
    injection h with h
    subst h
    have hc' : db.commitments.find? (fun x => x.id == cid) = some c := hc
    have hp := List.find?_some hc'
    have hid : (refinedCommitment c now s e cert src).id = cid := by
      rw [refinedCommitment_id]
      exact beq_iff_eq.mp hp
    have hset := getCommitment_setCommitment db.commitments cid c
      (refinedCommitment c now s e cert src) hc' hid
    unfold historyOf
    rw [hc]
    have hget : getCommitment
        { db with commitments := setCommitment db.commitments cid (refinedCommitment c now s e cert src) } cid =
        some (refinedCommitment c now s e cert src) := hset
    rw [hget]
    exact refinedCommitment_dateHistory c now s e cert src

/-! ## Claim theorems -/

/-- C2: every successful sequence of N `update_commitment_date` calls on one
commitment appends exactly N entries to `metadata.date_history`, one per call,
unconditionally; the previous history is preserved as a prefix, so no entry is
removed or reordered. -/
theorem refine_history_additive (db : DB) (cid : Nat) (rs : List RefineReq) (db' : DB)
    (h : applyRefines db cid rs = Except.ok db') :
    ∃ suffix : List HistoryEntry,
      historyOf db' cid = historyOf db cid ++ suffix ∧ suffix.length = rs.length := by
  induction rs generalizing db with
  | nil =>
    unfold applyRefines at h
    injection h with h
    subst h
    exact ⟨[], by simp, rfl⟩
  | cons r rs ih =>
    unfold applyRefines at h
    cases hu : update_commitment_date db cid r.now r.start_date r.end_date
        r.date_certainty r.source with
    | error err => rw [hu] at h; cases h
    | ok db1 =>
      rw [hu] at h
      obtain ⟨sfx, hs, hl⟩ := ih db1 h
      refine ⟨{ date := refineDateInfo r.start_date r.end_date, source := r.source, updated_at := isoformat r.now } :: sfx, ?_, by simp [hl]⟩
      rw [hs, historyOf_update db db1 cid r.now r.start_date r.end_date
        r.date_certainty r.source hu]
      simp

/-- Witness: two concrete refinements grow the concrete commitment's history
by exactly two entries. -/
theorem refine_history_additive_witness :
    ∃ suffix : List HistoryEntry,
      historyOf exampleDB2 1 = historyOf exampleDB 1 ++ suffix ∧ suffix.length = 2 :=
  refine_history_additive exampleDB 1 exampleReqs exampleDB2 rfl

/-- C3: a successful `update_commitment_date` call unconditionally overwrites
`start_date` and `date_certainty` with the supplied values, and overwrites
`end_date` only when an end date is supplied; with `end_date = None` the
previously stored end date is kept. -/
theorem refine_overwrites_fields (db db' : DB) (cid now s : Nat) (e : Option Nat)
    (cert src : String) (c : Commitment) (hc : getCommitment db cid = some c)
    (h : update_commitment_date db cid now s e cert src = Except.ok db') :
    ∃ c', getCommitment db' cid = some c' ∧ c'.start_date = some s ∧
      c'.date_certainty = cert ∧
      (∀ x, e = some x → c'.end_date = some x) ∧
      (e = none → c'.end_date = c.end_date) := by
  rw [update_commitment_date_eq_ok db cid now s e cert src c hc] at h
  injection h with h
  subst h
  have hc' : db.commitments.find? (fun x => x.id == cid) = some c := hc
  have hp := List.find?_some hc'
  have hid : (refinedCommitment c now s e cert src).id = cid := by
    rw [refinedCommitment_id]
    exact beq_iff_eq.mp hp
  refine ⟨refinedCommitment c now s e cert src,
    getCommitment_setCommitment db.commitments cid c _ hc' hid,
    refinedCommitment_start_date c now s e cert src,
    refinedCommitment_date_certainty c now s e cert src, ?_, ?_⟩
  · intro x hx
    subst hx
    rfl
  · intro hx
    subst hx
    rfl

/-- Witness: refining the concrete commitment with no end date keeps its
stored end date `some 30` while overwriting start date and certainty. -/
theorem refine_overwrites_fields_witness :
    ∃ c', getCommitment exampleRefinedDB 1 = some c' ∧ c'.start_date = some 20 ∧
      c'.date_certainty = "exact" ∧ (∀ x, (none : Option Nat) = some x → c'.end_date = some x) ∧
      ((none : Option Nat) = none → c'.end_date = some 30) :=
  refine_overwrites_fields exampleDB exampleRefinedDB 1 7 20 none "exact" "email-2"
    exampleCommitment rfl rfl

/-- C4 (counterexample): `create_commitment` raises no `ValidationError`: the
call with an empty title and an inverted date range succeeds and persists the
commitment, contradicting the claim that no commitment is created. -/
theorem create_commitment_validation_counterexample :
    ((create_commitment emptyDB 1 0 "" "meeting" (some 2) (some 1) "unknown").1).commitments.length = 1 ∧
    ((create_commitment emptyDB 1 0 "" "meeting" (some 2) (some 1) "unknown").2).title = "" ∧
    ((create_commitment emptyDB 1 0 "" "meeting" (some 2) (some 1) "unknown").2).start_date = some 2 ∧
    ((create_commitment emptyDB 1 0 "" "meeting" (some 2) (some 1) "unknown").2).end_date = some 1 :=
  ⟨rfl, rfl, rfl, rfl⟩

/-- C4 (amended): `create_commitment` performs no input validation: every
call, including one with an empty title or with `end_date < start_date`,
succeeds, appends exactly one commitment to the store, and stores the supplied
title and dates verbatim. -/
theorem create_commitment_unvalidated (db : DB) (newId now : Nat) (title ctype : String)
    (s e : Option Nat) (cert : String) :
    (create_commitment db newId now title ctype s e cert).1.commitments =
      db.commitments ++ [(create_commitment db newId now title ctype s e cert).2] ∧
    ((create_commitment db newId now title ctype s e cert).2).title = title ∧
    ((create_commitment db newId now title ctype s e cert).2).start_date = s ∧
    ((create_commitment db newId now title ctype s e cert).2).end_date = e :=
  ⟨rfl, rfl, rfl, rfl⟩

/-- C7 (counterexample): the date-order constraint is not maintained: creation
accepts `start_date = 5`, `end_date = 3`, leaving a commitment whose present
end date precedes its present start date. -/
theorem date_order_invariant_counterexample :
    ((create_commitment emptyDB 1 0 "Team Offsite" "trip" (some 5) (some 3) "day").2).start_date = some 5 ∧
    ((create_commitment emptyDB 1 0 "Team Offsite" "trip" (some 5) (some 3) "day").2).end_date = some 3 ∧
    (3 : Nat) < 5 :=
  ⟨rfl, rfl, by decide⟩

/-- C7 (amended): no operation checks the order of the two dates: whenever the
caller supplies `end_date < start_date` at creation, the created commitment
stores exactly those values, so the claimed invariant does not hold. -/
theorem date_order_not_enforced (db : DB) (newId now : Nat) (title ctype : String)
    (s e : Nat) (cert : String) (_h : e < s) :
    ((create_commitment db newId now title ctype (some s) (some e) cert).2).start_date = some s ∧
    ((create_commitment db newId now title ctype (some s) (some e) cert).2).end_date = some e :=
  ⟨rfl, rfl⟩

/-- Witness: creating with start 5 and end 3 stores the inverted range. -/
theorem date_order_not_enforced_witness :
    ((create_commitment emptyDB 1 0 "Team Offsite" "trip" (some 5) (some 3) "day").2).start_date = some 5 ∧
    ((create_commitment emptyDB 1 0 "Team Offsite" "trip" (some 5) (some 3) "day").2).end_date = some 3 :=
  date_order_not_enforced emptyDB 1 0 "Team Offsite" "trip" 5 3 "day" (by decide)

/-- C8: every `create_commitment` call yields a commitment with status
`active`, an empty date history, and `created_at` equal to `updated_at`. -/
theorem create_commitment_initial_state (db : DB) (newId now : Nat) (title ctype : String)
    (s e : Option Nat) (cert : String) :
    ((create_commitment db newId now title ctype s e cert).2).status = "active" ∧
    ((create_commitment db newId now title ctype s e cert).2).dateHistory = [] ∧
    ((create_commitment db newId now title ctype s e cert).2).created_at =
      ((create_commitment db newId now title ctype s e cert).2).updated_at ∧
    ((create_commitment db newId now title ctype s e cert).2).created_at = some now :=
  ⟨rfl, rfl, rfl, rfl⟩

theorem link_email_ok_shape (db : DB) (newId now cid : Nat) (mid lb : String)
    (cs : Option Int) (lr : Option String) (db1 : DB) (l : CommitmentEmail)
    (h : link_email_to_commitment db newId now cid mid lb cs lr = Except.ok (db1, l)) :
    db.commitments.any (fun c => c.id == cid) = true ∧
    db.emailLinks.any (fun x => x.commitment_id == cid && x.message_id == mid) = false ∧
    l.commitment_id = cid ∧ l.message_id = mid ∧
    db1.commitments = db.commitments ∧ db1.emailLinks = db.emailLinks ++ [l] := by
  simp only [link_email_to_commitment] at h
  split at h
  next hex =>
    split at h
    next hdup => cases h
    next hdup =>
      injection h with h
      injection h with h1 h2
      subst h1
      subst h2
      exact ⟨hex, by simpa using hdup, rfl, rfl, rfl, rfl⟩
  next hex => cases h

/-- C1: after a successful `link_email_to_commitment` call, exactly one link
row with the given `(commitment_id, message_id)` pair is persisted, and a
second call with the identical pair fails with `DuplicateLink` instead of
creating a second row. -/
theorem link_email_unique (db db1 : DB) (id1 id2 now1 now2 cid : Nat)
    (mid lb1 lb2 : String) (cs1 cs2 : Option Int) (lr1 lr2 : Option String)
    (l : CommitmentEmail)
    (h : link_email_to_commitment db id1 now1 cid mid lb1 cs1 lr1 = Except.ok (db1, l)) :
    emailLinkCount db1 cid mid = 1 ∧
    link_email_to_commitment db1 id2 now2 cid mid lb2 cs2 lr2 =
      Except.error LinkError.DuplicateLink := by
  obtain ⟨hex, hdup, hlc, hlm, hcomm, hlinks⟩ :=
    link_email_ok_shape db id1 now1 cid mid lb1 cs1 lr1 db1 l h
  have hpl : (l.commitment_id == cid && l.message_id == mid) = true := by
    rw [hlc, hlm]
    simp
  constructor
  · unfold emailLinkCount
    rw [hlinks, List.filter_append]
    have hnil : List.filter (fun x => x.commitment_id == cid && x.message_id == mid)
        db.emailLinks = [] := by
      rw [List.filter_eq_nil_iff]
      rw [List.any_eq_false] at hdup
      exact hdup
    rw [hnil]
    simp [List.filter_cons_of_pos, hpl]
  · simp only [link_email_to_commitment]
    rw [hcomm]
    rw [if_pos hex]
    have hdup2 : db1.emailLinks.any
        (fun x => x.commitment_id == cid && x.message_id == mid) = true := by
      rw [hlinks, List.any_append]
      simp [hpl]
    rw [if_pos hdup2]

/-- Witness: linking `msg-1` to the concrete commitment once succeeds and
leaves one row; repeating the identical call reports `DuplicateLink`. -/
theorem link_email_unique_witness :
    emailLinkCount exampleLinkedDB 1 "msg-1" = 1 ∧
    link_email_to_commitment exampleLinkedDB 11 6 1 "msg-1" "ai" none none =
      Except.error LinkError.DuplicateLink :=
  link_email_unique exampleDB exampleLinkedDB 10 11 5 6 1 "msg-1" "ai" "ai"
    none none none none exampleLink rfl

/-- C6: when the commitment id resolves to no commitment, both
`update_commitment_date` and `link_email_to_commitment` fail with their
not-found outcome, returning no updated store. -/
theorem notfound_no_state_change (db : DB) (cid : Nat)
    (hc : getCommitment db cid = none) (now s linkId now2 : Nat) (e : Option Nat)
    (cert src mid lb : String) (cs : Option Int) (lr : Option String) :
    update_commitment_date db cid now s e cert src = Except.error RefineError.NotFound ∧
    link_email_to_commitment db linkId now2 cid mid lb cs lr =
      Except.error LinkError.NotFound := by
  have hany : db.commitments.any (fun c => c.id == cid) = false := by
    rw [List.any_eq_false]
    have hfind : db.commitments.find? (fun c => c.id == cid) = none := hc
    rw [List.find?_eq_none] at hfind
    exact hfind
  constructor
  · unfold update_commitment_date
    rw [hc]
  · simp only [link_email_to_commitment]
    rw [if_neg]
    rw [hany]
    simp

/-- Witness: on the empty store, commitment id 1 resolves to nothing and both
operations report their not-found outcome. -/
theorem notfound_no_state_change_witness :
    update_commitment_date emptyDB 1 0 10 none "exact" "email-1" =
      Except.error RefineError.NotFound ∧
    link_email_to_commitment emptyDB 2 0 1 "msg-1" "ai" none none =
      Except.error LinkError.NotFound :=
  notfound_no_state_change emptyDB 1 rfl 0 10 2 0 none "exact" "email-1" "msg-1" "ai" none none

/-- C9: `to_dict` is a flat mapping whose keys are exactly the commitment
fields plus the two derived counts; `email_count` and `calendar_event_count`
equal the number of email and calendar-event links of the commitment; each
absent timestamp renders as `null` instead of being omitted or failing. -/
theorem to_dict_complete (db : DB) (c : Commitment) :
    Json.keys (Commitment.to_dict db c) =
      ["id", "title", "description", "commitment_type", "status", "start_date",
       "end_date", "timezone", "date_certainty", "participants", "organizer",
       "location", "meeting_links", "auto_linked", "confidence_score", "metadata",
       "created_at", "updated_at", "email_count", "calendar_event_count"] ∧
    Json.lookup (Commitment.to_dict db c) "email_count" =
      some (Json.num (Int.ofNat (emailCount db c.id))) ∧
    Json.lookup (Commitment.to_dict db c) "calendar_event_count" =
      some (Json.num (Int.ofNat (calendarEventCount db c.id))) ∧
    (c.start_date = none → Json.lookup (Commitment.to_dict db c) "start_date" = some Json.null) ∧
    (c.end_date = none → Json.lookup (Commitment.to_dict db c) "end_date" = some Json.null) ∧
    (c.created_at = none → Json.lookup (Commitment.to_dict db c) "created_at" = some Json.null) ∧
    (c.updated_at = none → Json.lookup (Commitment.to_dict db c) "updated_at" = some Json.null) := by
  refine ⟨rfl, rfl, rfl, ?_, ?_, ?_, ?_⟩ <;> intro hnone <;>
    simp [Commitment.to_dict, Json.lookup, hnone]

/-- Witness: serializing the concrete commitment with every timestamp absent
renders the four timestamps as `null` and reports zero links. -/
theorem to_dict_complete_witness :
    Json.lookup (Commitment.to_dict emptyDB exampleBareCommitment) "start_date" = some Json.null ∧
    Json.lookup (Commitment.to_dict emptyDB exampleBareCommitment) "end_date" = some Json.null ∧
    Json.lookup (Commitment.to_dict emptyDB exampleBareCommitment) "created_at" = some Json.null ∧
    Json.lookup (Commitment.to_dict emptyDB exampleBareCommitment) "updated_at" = some Json.null ∧
    Json.lookup (Commitment.to_dict emptyDB exampleBareCommitment) "email_count" =
      some (Json.num (Int.ofNat (emailCount emptyDB exampleBareCommitment.id))) :=
  ⟨(to_dict_complete emptyDB exampleBareCommitment).2.2.2.1 rfl,
   (to_dict_complete emptyDB exampleBareCommitment).2.2.2.2.1 rfl,
   (to_dict_complete emptyDB exampleBareCommitment).2.2.2.2.2.1 rfl,
   (to_dict_complete emptyDB exampleBareCommitment).2.2.2.2.2.2 rfl,
   (to_dict_complete emptyDB exampleBareCommitment).2.1⟩

/-- C10: called with only a start date, the date-update entry point applies
its parameter defaults: the commitment's certainty becomes `exact` and the
recorded history entry carries source `update`. -/
theorem update_defaults_applied (db : DB) (cid now s : Nat) (c : Commitment)
    (hc : getCommitment db cid = some c) :
    ∃ db', update_commitment_date db cid now s none
        update_commitment_date_default_certainty update_commitment_date_default_source =
          Except.ok db' ∧
      ∃ c', getCommitment db' cid = some c' ∧ c'.date_certainty = "exact" ∧
        c'.dateHistory =
          c.dateHistory ++ [{ date := isoformat s, source := "update", updated_at := isoformat now }] := by
  refine ⟨_, update_commitment_date_eq_ok db cid now s none
    update_commitment_date_default_certainty update_commitment_date_default_source c hc, ?_⟩
  have hc' : db.commitments.find? (fun x => x.id == cid) = some c := hc
  have hp := List.find?_some hc'
  have hid : (refinedCommitment c now s none
      update_commitment_date_default_certainty update_commitment_date_default_source).id = cid := by
    rw [refinedCommitment_id]
    exact beq_iff_eq.mp hp
  refine ⟨refinedCommitment c now s none
      update_commitment_date_default_certainty update_commitment_date_default_source,
    getCommitment_setCommitment db.commitments cid c _ hc' hid, rfl, ?_⟩
  rw [refinedCommitment_dateHistory]
  rfl

/-- Witness: refining the concrete commitment through the defaults sets
certainty `exact` and appends a history entry with source `update`. -/
theorem update_defaults_applied_witness :
    ∃ db', update_commitment_date exampleDB 1 8 21 none
        update_commitment_date_default_certainty update_commitment_date_default_source =
          Except.ok db' ∧
      ∃ c', getCommitment db' 1 = some c' ∧ c'.date_certainty = "exact" ∧
        c'.dateHistory = exampleCommitment.dateHistory ++
          [{ date := isoformat 21, source := "update", updated_at := isoformat 8 }] :=
  update_defaults_applied exampleDB 1 8 21 exampleCommitment rfl

/-- C5: `rank` maps the six certainty labels to positions 0..5 of the order
`unknown < month < week < day < exact < time_confirmed` and fails with
`InvalidCertainty` on every other label; `is_refinement a b` holds exactly
when `rank b >= rank a`, and the relation is reflexive and transitive. -/
theorem certainty_lattice_ok :
    (rank "unknown" = Except.ok 0 ∧ rank "month" = Except.ok 1 ∧
     rank "week" = Except.ok 2 ∧ rank "day" = Except.ok 3 ∧
     rank "exact" = Except.ok 4 ∧ rank "time_confirmed" = Except.ok 5) ∧
    (∀ l, l ∉ certaintyLevels → rank l = Except.error CertaintyError.InvalidCertainty) ∧
    (∀ a b ra rb, rank a = Except.ok ra → rank b = Except.ok rb →
      (is_refinement a b = Except.ok true ↔ ra ≤ rb)) ∧
    (∀ a, a ∈ certaintyLevels → is_refinement a a = Except.ok true) ∧
    (∀ a b c, is_refinement a b = Except.ok true → is_refinement b c = Except.ok true →
      is_refinement a c = Except.ok true) := by
  refine ⟨⟨rfl, rfl, rfl, rfl, rfl, rfl⟩, ?_, ?_, ?_, ?_⟩
  · intro l hl
    simp only [certaintyLevels, List.mem_cons, List.not_mem_nil, or_false, not_or] at hl
    obtain ⟨h1, h2, h3, h4, h5, h6⟩ := hl
    simp [rank, h1, h2, h3, h4, h5, h6]
  · intro a b ra rb ha hb
    unfold is_refinement
    rw [ha, hb]
    simp
  · intro a ha
    simp only [certaintyLevels, List.mem_cons, List.not_mem_nil, or_false] at ha
    rcases ha with rfl | rfl | rfl | rfl | rfl | rfl <;> rfl
  · intro a b c hab hbc
    cases ha : rank a with
    | error ea =>
      unfold is_refinement at hab
      rw [ha] at hab
      cases hab
    | ok ra =>
      cases hb : rank b with
      | error eb =>
        unfold is_refinement at hab
        rw [ha, hb] at hab
        cases hab
      | ok rb =>
        cases hcr : rank c with
        | error ec =>
          unfold is_refinement at hbc
          rw [hb, hcr] at hbc
          cases hbc
        | ok rc =>
          unfold is_refinement at hab hbc ⊢
          rw [ha, hb] at hab
          rw [hb, hcr] at hbc
          rw [ha, hcr]
          simp at hab hbc ⊢
          omega

/-- Witness: concrete lattice facts obtained from the lattice theorem. -/
theorem certainty_lattice_ok_witness :
    rank "certain" = Except.error CertaintyError.InvalidCertainty ∧
    (is_refinement "week" "exact" = Except.ok true ↔ (2 : Nat) ≤ 4) ∧
    is_refinement "day" "day" = Except.ok true ∧
    is_refinement "unknown" "week" = Except.ok true :=
  ⟨certainty_lattice_ok.2.1 "certain" (by decide),
   certainty_lattice_ok.2.2.1 "week" "exact" 2 4 rfl rfl,
   certainty_lattice_ok.2.2.2.1 "day" (by simp [certaintyLevels]),
   certainty_lattice_ok.2.2.2.2 "unknown" "month" "week" rfl rfl⟩
